import Mathlib

/-!
# Verification of the Lethe DEM solver timestep engine (`source/dem/dem.cc`)

This development shallowly embeds `DEMSolver<dim>` from `source/dem/dem.cc`:
the constructor's configuration check, the load-balancing weight callback
`cell_weight`, the per-particle force reset `reinitialize_force`, the cadenced
insertion `insert_particles`, the runtime selection of the insertion /
integration / contact-force variants, and the phase structure of one iteration
of the `solve()` loop, which we model as a trace of events in the order the
code performs them.

Step numbers and frequencies are machine integers compared through `fmod` in
the source; we embed them as `Nat` with `%`, which agrees with `fmod` on
integer-valued doubles whenever the divisor is positive (theorems carry the
positivity hypotheses).  Particle properties are stored as doubles in the
source; the claims we settle about them concern only *which* property slots
are written, so we model the property values as exact rationals.
-/

namespace DEM

/-- One particle of the particle handler, with the property slots of the DEM
property pool that `dem.cc` touches: identifier, position, velocity, angular
velocity, radius, mass, accumulated force (`force_x/y/z`) and accumulated
torque (`M_x/y/z`). -/
structure Particle where
  id : Nat
  pos_x : ℚ
  pos_y : ℚ
  pos_z : ℚ
  v_x : ℚ
  v_y : ℚ
  v_z : ℚ
  omega_x : ℚ
  omega_y : ℚ
  omega_z : ℚ
  radius : ℚ
  mass : ℚ
  force_x : ℚ
  force_y : ℚ
  force_z : ℚ
  M_x : ℚ
  M_y : ℚ
  M_z : ℚ
  deriving DecidableEq, Repr

/-- The body of the loop of `DEMSolver<dim>::reinitialize_force` for one
particle: zero `force_x`, `force_y`, `M_x`, `M_y`, and additionally `force_z`
and `M_z` when `dim = 3`.  All other property slots are untouched. -/
def reinit_particle (dim : Nat) (p : Particle) : Particle :=
  let p1 : Particle :=
    { p with force_x := 0, force_y := 0, M_x := 0, M_y := 0 }
  if dim = 3 then { p1 with force_z := 0, M_z := 0 } else p1

/-- Embeds `DEMSolver<dim>::reinitialize_force` (dem.cc:293-318): iterate over
every particle of the handler and reset its force and torque slots. -/
def reinit_force (dim : Nat) (particles : List Particle) : List Particle :=
  particles.map (reinit_particle dim)

/-- The non-force, non-torque observables of a particle: identifier, position,
velocity, angular velocity, radius, mass. -/
def Particle.kinematics (p : Particle) :
    Nat × ℚ × ℚ × ℚ × ℚ × ℚ × ℚ × ℚ × ℚ × ℚ × ℚ × ℚ :=
  (p.id, p.pos_x, p.pos_y, p.pos_z, p.v_x, p.v_y, p.v_z,
   p.omega_x, p.omega_y, p.omega_z, p.radius, p.mass)

/-- Embeds `DEMSolver<dim>::insert_particles` (dem.cc:199-209).  The actual
placement of new particles is delegated to the chosen insertion object
(`insertion_object->insert`), abstracted here as a function `ins` on the
particle population; `dem.cc` only decides *whether* it is called:
`fmod(step, insertion_frequency) == 1`.  Returns the flag the caller receives
together with the updated population. -/
def insert_particles (step insertion_frequency : Nat)
    (ins : List Particle → List Particle) (handler : List Particle) :
    Bool × List Particle :=
  if step % insertion_frequency = 1 then (true, ins handler)
  else (false, handler)

/-- The status a cell can have in the repartition callback (deal.II
`parallel::distributed::Triangulation<dim>::CellStatus`), restricted to the
three values `DEMSolver<dim>::cell_weight` handles (any other status is
asserted unreachable in the source). -/
inductive CellStatus where
  | cellPersist
  | cellRefine
  | cellCoarsen
  deriving DecidableEq, Repr

/-- The data of a cell that `cell_weight` consults: whether this process owns
it, how many particles the handler counts in it, and the particle counts of
its children (relevant only for a coarsened cell). -/
structure Cell where
  is_locally_owned : Bool
  n_particles : Nat
  child_n_particles : List Nat
  deriving DecidableEq, Repr

/-- The fixed weight per particle in `cell_weight` (dem.cc:132). -/
def particle_weight : Nat := 10000

/-- The default weight deal.II assigns to every cell, quoted in the comment of
`cell_weight` (dem.cc:124): "by default every cell has a weight of 1000". -/
def base_cell_weight : Nat := 1000

/-- Embeds `DEMSolver<dim>::cell_weight` (dem.cc:112-160): no weight for a
cell this process does not own; otherwise the particle count of the cell (for
a persisting or refined cell) or the summed particle count of its children
(for a coarsened cell), times `particle_weight`. -/
def cell_weight (cell : Cell) (status : CellStatus) : Nat :=
  if cell.is_locally_owned = false then 0
  else
    match status with
    | .cellPersist => cell.n_particles * particle_weight
    | .cellRefine => cell.n_particles * particle_weight
    | .cellCoarsen => cell.child_n_particles.sum * particle_weight

/-- Embeds the check of the `DEMSolver` constructor (dem.cc:61-65):
`fmod(repartition_frequency, contact_detection_frequency) != 0` throws a
`std::runtime_error` with a descriptive message; otherwise construction
proceeds. -/
def constructorRepartitionCheck (repartition_frequency contact_detection_frequency : Nat) :
    Except String Unit :=
  if repartition_frequency % contact_detection_frequency ≠ 0 then
    .error "The repartition frequency must be a multiple of the contact detection frequency"
  else
    .ok ()

/-- The insertion method requested by the configuration
(`Parameters::Lagrangian::InsertionInfo::InsertionMethod`); `unrecognized`
stands for any value outside the two handled by `set_insertion_type`. -/
inductive InsertionMethod where
  | uniform
  | non_uniform
  | unrecognized
  deriving DecidableEq, Repr

/-- The integration method requested by the configuration. -/
inductive IntegrationMethod where
  | velocity_verlet
  | explicit_euler
  | unrecognized
  deriving DecidableEq, Repr

/-- The particle-particle contact force model requested by the configuration. -/
inductive PPContactForceModel where
  | pp_linear
  | pp_nonlinear
  | unrecognized
  deriving DecidableEq, Repr

/-- The particle-wall contact force model requested by the configuration. -/
inductive PWContactForceModel where
  | pw_linear
  | pw_nonlinear
  | unrecognized
  deriving DecidableEq, Repr

/-- The concrete insertion variant `set_insertion_type` constructs. -/
inductive InsertionVariant where
  | uniformInsertion
  | nonUniformInsertion
  deriving DecidableEq, Repr

/-- The concrete integrator variant `set_integrator_type` constructs. -/
inductive IntegratorVariant where
  | velocityVerletIntegrator
  | explicitEulerIntegrator
  deriving DecidableEq, Repr

/-- The concrete particle-particle force variant `set_pp_contact_force`
constructs. -/
inductive PPForceVariant where
  | ppLinearForce
  | ppNonLinearForce
  deriving DecidableEq, Repr

/-- The concrete particle-wall force variant `set_pw_contact_force`
constructs. -/
inductive PWForceVariant where
  | pwLinearForce
  | pwNonLinearForce
  deriving DecidableEq, Repr

/-- The four variant selections of the configuration that `solve()` resolves
before its loop (dem.cc:497-501). -/
structure SolverSelections where
  insertion_method : InsertionMethod
  integration_method : IntegrationMethod
  pp_method : PPContactForceModel
  pw_method : PWContactForceModel
  deriving DecidableEq, Repr

/-- The concrete objects held by the solver after the four `set_*` calls. -/
structure SolverObjects where
  insertion_object : InsertionVariant
  integrator_object : IntegratorVariant
  pp_contact_force_object : PPForceVariant
  pw_contact_force_object : PWForceVariant
  deriving DecidableEq, Repr

/-- Embeds `DEMSolver<dim>::set_insertion_type` (dem.cc:320-339): an
unrecognized method throws with a descriptive message. -/
def set_insertion_type : InsertionMethod → Except String InsertionVariant
  | .uniform => .ok .uniformInsertion
  | .non_uniform => .ok .nonUniformInsertion
  | .unrecognized => .error "The chosen insertion method is invalid"

/-- Embeds `DEMSolver<dim>::set_integrator_type` (dem.cc:341-362). -/
def set_integrator_type : IntegrationMethod → Except String IntegratorVariant
  | .velocity_verlet => .ok .velocityVerletIntegrator
  | .explicit_euler => .ok .explicitEulerIntegrator
  | .unrecognized => .error "The chosen integration method is invalid"

/-- Embeds `DEMSolver<dim>::set_pp_contact_force` (dem.cc:364-384). -/
def set_pp_contact_force : PPContactForceModel → Except String PPForceVariant
  | .pp_linear => .ok .ppLinearForce
  | .pp_nonlinear => .ok .ppNonLinearForce
  | .unrecognized => .error "The chosen particle-particle contact force model is invalid"

/-- Embeds `DEMSolver<dim>::set_pw_contact_force` (dem.cc:386-406). -/
def set_pw_contact_force : PWContactForceModel → Except String PWForceVariant
  | .pw_linear => .ok .pwLinearForce
  | .pw_nonlinear => .ok .pwNonLinearForce
  | .unrecognized => .error "The chosen particle-wall contact force model is invalid"

/-- The setup phase of `solve()` (dem.cc:497-501): resolve the four variants,
in the order the source performs the calls, before the timestep loop starts. -/
def solveSetup (p : SolverSelections) : Except String SolverObjects := do
  let i ← set_insertion_type p.insertion_method
  let g ← set_integrator_type p.integration_method
  let pp ← set_pp_contact_force p.pp_method
  let pw ← set_pw_contact_force p.pw_method
  return ⟨i, g, pp, pw⟩

/-- The observable phases of one iteration of the `solve()` loop
(dem.cc:504-637), in source order.  Events with a `rebuild` name cover the
repartition block's reconstruction calls; `packParticles` / `unpackParticles`
are the `register_store_callback_function` / `register_load_callback_function`
callbacks the constructor connects to the `pre_distributed_repartition` /
`post_distributed_repartition` signals of the triangulation (dem.cc:89-96), so
they fire immediately before and after the redistribution inside
`triangulation.repartition()`. -/
inductive Event where
  | packParticles
  | repartitionTriangulation
  | unpackParticles
  | clearNeighborLists
  | clearBoundaryCells
  | rebuildNeighborLists
  | rebuildBoundaryCellsInfo
  | rebuildBoundaryPointsLines
  | reinitForces
  | insertParticlesCall
  | sortParticlesIntoCells
  | exchangeGhostParticles
  | ppBroadSearch
  | pwBroadSearch
  | localizeContacts
  | locateLocalParticles
  | locateGhostParticles
  | ppFineSearch
  | ppContactForce
  | pwFineSearch
  | pwContactForce
  | integrateMotion
  | writeOutput
  deriving DecidableEq, Repr

/-- The repartition block of the loop (dem.cc:508-532): `repartition()` (with
its pack / unpack callbacks), clearing of the neighbor-list and boundary-cell
caches, and their reconstruction from the new decomposition. -/
def repartitionEvents : List Event :=
  [.packParticles, .repartitionTriangulation, .unpackParticles,
   .clearNeighborLists, .clearBoundaryCells,
   .rebuildNeighborLists, .rebuildBoundaryCellsInfo, .rebuildBoundaryPointsLines]

/-- One iteration of the `solve()` loop as a function of the three conditions
the source tests: `rep` is `fmod(step, repartition_frequency) == 0`, `det` is
`particles_were_inserted || fmod(step, contact_detection_frequency) == 0`
(the condition repeated verbatim by every conditional search block), and
`out` is `simulation_control->is_output_iteration()`. -/
def iterationEvents (rep det out : Bool) : List Event :=
  (if rep then repartitionEvents else []) ++
  [.reinitForces, .insertParticlesCall] ++
  (if det then [.sortParticlesIntoCells] else []) ++
  [.exchangeGhostParticles] ++
  (if det then
    [.ppBroadSearch, .pwBroadSearch, .localizeContacts, .locateLocalParticles]
   else [.locateGhostParticles]) ++
  (if det then [.ppFineSearch] else []) ++
  [.ppContactForce] ++
  (if det then [.pwFineSearch] else []) ++
  [.pwContactForce, .integrateMotion] ++
  (if out then [.writeOutput] else [])

/-- The trace of the iteration of the `solve()` loop whose step number is `n`,
with contact detection frequency `C`, repartition frequency `R` and insertion
frequency `F`: the `particles_were_inserted` flag is the return value of
`insert_particles`, i.e. `n % F == 1`. -/
def solveIterationTrace (n C R F : Nat) (out : Bool) : List Event :=
  iterationEvents (n % R == 0) ((n % F == 1) || (n % C == 0)) out

/-- The whole run: the constructor's configuration check, then `solve()`,
which resolves the four variants and only then enters the timestep loop; the
result is the per-step trace list.  An `error` models the exception escaping
before any timestep executes. -/
def runDEM (R C F : Nat) (p : SolverSelections) (steps : List Nat) :
    Except String (List (List Event)) := do
  let _ ← constructorRepartitionCheck R C
  let _ ← solveSetup p
  return steps.map (fun n => solveIterationTrace n C R F false)

/-- The derived caches of the solver named by the spec: the local and ghost
neighbor-cell lists, the boundary-feature associations (faces, lines, points),
the candidate-pair lists of each geometry kind, and the contact-object
collections (local and ghost particle-particle, particle-wall, and
particle-point/line). -/
inductive Cache where
  | localNeighborList
  | ghostNeighborList
  | boundaryFaces
  | boundaryLines
  | boundaryPoints
  | ppCandidates
  | pwCandidates
  | pointLineCandidates
  | localContactObjects
  | ghostContactObjects
  | pwContactObjects
  | pointLineContactObjects
  deriving DecidableEq, Repr

/-- Modelled from the spec: the bodies of `find_PP_Contact_Pairs`,
`find_PW_Contact_Pairs`, `pw_Fine_Search`, `pp_Fine_Search`,
`localize_contacts` and `locate_local_particles_in_cells` live outside
`dem.cc`; per the spec, broad search produces fresh candidate-pair lists, and
`localize_contacts` together with the fine searches invalidate and rebuild
the persistent contact-object collections from those candidates.  This map
records which caches each event rebuilds from the current decomposition; the
entries for the rebuild events of the repartition block and for the
assignment of the point/line candidate and contact collections (dem.cc:219-229
and 238-246 assign the search results) follow `dem.cc` directly. -/
def rebuilds : Event → List Cache
  | .rebuildNeighborLists => [.localNeighborList, .ghostNeighborList]
  | .rebuildBoundaryCellsInfo => [.boundaryFaces]
  | .rebuildBoundaryPointsLines => [.boundaryLines, .boundaryPoints]
  | .ppBroadSearch => [.ppCandidates]
  | .pwBroadSearch => [.pwCandidates, .pointLineCandidates]
  | .localizeContacts => [.localContactObjects, .ghostContactObjects, .pwContactObjects]
  | .ppFineSearch => [.localContactObjects, .ghostContactObjects]
  | .pwFineSearch => [.pwContactObjects, .pointLineContactObjects]
  | _ => []

/-- Which caches an event consumes, read off the argument lists in `dem.cc`:
broad search reads the neighbor-cell lists and the boundary-feature
associations, `find_particle_point_and_line_contact_cells` reads
`boundary_cells_with_faces`, `localize_contacts` and the fine searches read
the candidate lists, and the force computations read the contact-object
collections. -/
def consumes : Event → List Cache
  | .rebuildBoundaryPointsLines => [.boundaryFaces]
  | .ppBroadSearch => [.localNeighborList, .ghostNeighborList]
  | .pwBroadSearch => [.boundaryFaces, .boundaryLines, .boundaryPoints]
  | .localizeContacts => [.ppCandidates, .pwCandidates]
  | .ppFineSearch => [.ppCandidates]
  | .pwFineSearch => [.pwCandidates, .pointLineCandidates]
  | .ppContactForce => [.localContactObjects, .ghostContactObjects]
  | .pwContactForce => [.pwContactObjects, .pointLineContactObjects]
  | _ => []

/-- Every consumption of a derived cache in the trace `t` is preceded by an
event that rebuilt that cache earlier in the same trace. -/
def rebuiltBeforeConsumed (t : List Event) : Prop :=
  ∀ (j : Fin t.length) (c : Cache),
    c ∈ consumes (t.get j) → ∃ e ∈ t.take j.val, c ∈ rebuilds e

instance (t : List Event) : Decidable (rebuiltBeforeConsumed t) := by
  unfold rebuiltBeforeConsumed; infer_instance

/-- The phase ordering of one iteration of `solve()` that actually holds:
each geometry class runs broad search, fine search, force computation in that
order; ghost exchange precedes every force computation; integration follows
every force computation; broad and fine search of a class run on the same
steps; and the particle-particle force computation precedes the particle-wall
fine search of the same iteration. -/
def orderedPhases (t : List Event) : Prop :=
  Event.exchangeGhostParticles ∈ t ∧ Event.ppContactForce ∈ t ∧
  Event.pwContactForce ∈ t ∧ Event.integrateMotion ∈ t ∧
  t.indexOf Event.exchangeGhostParticles < t.indexOf Event.ppContactForce ∧
  t.indexOf Event.exchangeGhostParticles < t.indexOf Event.pwContactForce ∧
  (Event.ppFineSearch ∈ t →
    Event.ppBroadSearch ∈ t ∧
    t.indexOf Event.ppBroadSearch < t.indexOf Event.ppFineSearch ∧
    t.indexOf Event.ppFineSearch < t.indexOf Event.ppContactForce) ∧
  (Event.pwFineSearch ∈ t →
    Event.pwBroadSearch ∈ t ∧
    t.indexOf Event.pwBroadSearch < t.indexOf Event.pwFineSearch ∧
    t.indexOf Event.pwFineSearch < t.indexOf Event.pwContactForce ∧
    t.indexOf Event.ppContactForce < t.indexOf Event.pwFineSearch) ∧
  t.indexOf Event.ppContactForce < t.indexOf Event.integrateMotion ∧
  t.indexOf Event.pwContactForce < t.indexOf Event.integrateMotion ∧
  (Event.ppBroadSearch ∈ t ↔ Event.ppFineSearch ∈ t) ∧
  (Event.pwBroadSearch ∈ t ↔ Event.pwFineSearch ∈ t)

instance (t : List Event) : Decidable (orderedPhases t) := by
  unfold orderedPhases; infer_instance

/-- Soundness of a repartition iteration: particle data is packed before the
redistribution and unpacked after it, the neighbor-list and boundary caches
are cleared before being rebuilt, all rebuild events are present, and every
derived cache is rebuilt before it is next consumed. -/
def repartitionStepSound (t : List Event) : Prop :=
  Event.packParticles ∈ t ∧ Event.repartitionTriangulation ∈ t ∧
  Event.unpackParticles ∈ t ∧
  t.indexOf Event.packParticles < t.indexOf Event.repartitionTriangulation ∧
  t.indexOf Event.repartitionTriangulation < t.indexOf Event.unpackParticles ∧
  Event.clearNeighborLists ∈ t ∧ Event.clearBoundaryCells ∈ t ∧
  Event.rebuildNeighborLists ∈ t ∧ Event.rebuildBoundaryCellsInfo ∈ t ∧
  Event.rebuildBoundaryPointsLines ∈ t ∧
  t.indexOf Event.clearNeighborLists < t.indexOf Event.rebuildNeighborLists ∧
  t.indexOf Event.clearBoundaryCells < t.indexOf Event.rebuildBoundaryCellsInfo ∧
  rebuiltBeforeConsumed t

instance (t : List Event) : Decidable (repartitionStepSound t) := by
  unfold repartitionStepSound; infer_instance

/-- The force reset precedes insertion, every contact search, and every force
computation of the iteration. -/
def reinitPrecedesPhases (t : List Event) : Prop :=
  Event.reinitForces ∈ t ∧
  ∀ (j : Fin t.length),
    t.get j ∈ ([.insertParticlesCall, .ppBroadSearch, .pwBroadSearch,
                .ppFineSearch, .pwFineSearch, .ppContactForce,
                .pwContactForce] : List Event) →
    t.indexOf Event.reinitForces < j.val

instance (t : List Event) : Decidable (reinitPrecedesPhases t) := by
  unfold reinitPrecedesPhases; infer_instance

lemma solveIterationTrace_eq (n C R F : Nat) (out : Bool) :
    solveIterationTrace n C R F out =
      iterationEvents (n % R == 0) ((n % F == 1) || (n % C == 0)) out := rfl

lemma searches_in_iterationEvents (rep det out : Bool) :
    (Event.ppBroadSearch ∈ iterationEvents rep det out ↔ det = true) ∧
    (Event.pwBroadSearch ∈ iterationEvents rep det out ↔ det = true) ∧
    (Event.ppFineSearch ∈ iterationEvents rep det out ↔ det = true) ∧
    (Event.pwFineSearch ∈ iterationEvents rep det out ↔ det = true) := by
  cases rep <;> cases det <;> cases out <;> decide

/-- Claim C1. If the repartition frequency `R` is not an integer multiple of the
contact detection frequency `C`, the run fails with the constructor's
descriptive error and no timestep trace is produced; when `R mod C = 0` the
constructor's check succeeds. -/
theorem repartition_frequency_startup_check (R C F : Nat) (p : SolverSelections)
    (steps : List Nat) (hC : 0 < C) :
    (R % C ≠ 0 →
      runDEM R C F p steps =
        Except.error
          "The repartition frequency must be a multiple of the contact detection frequency") ∧
    (R % C = 0 → constructorRepartitionCheck R C = Except.ok ()) := by
  constructor
  · intro h
    have hc : constructorRepartitionCheck R C =
        Except.error
          "The repartition frequency must be a multiple of the contact detection frequency" := by
      simp [constructorRepartitionCheck, h]
    unfold runDEM
    rw [hc]
    rfl
  · intro h
    simp [constructorRepartitionCheck, h]

/-- Witness for C1: the check rejects `R = 3, C = 2` before any timestep and
accepts `R = 4, C = 2`. -/
theorem repartition_frequency_startup_check_witness :
    runDEM 3 2 1 ⟨.uniform, .velocity_verlet, .pp_linear, .pw_linear⟩ [1] =
      Except.error
        "The repartition frequency must be a multiple of the contact detection frequency" ∧
    constructorRepartitionCheck 4 2 = Except.ok () :=
  ⟨(repartition_frequency_startup_check 3 2 1
      ⟨.uniform, .velocity_verlet, .pp_linear, .pw_linear⟩ [1] (by decide)).1 (by decide),
   (repartition_frequency_startup_check 4 2 1
      ⟨.uniform, .velocity_verlet, .pp_linear, .pw_linear⟩ [1] (by decide)).2 (by decide)⟩

/-- Claim C2, counterexample. At step 2 with contact detection frequency 1,
repartition frequency 5 (a multiple of 1, so the configuration passes the
startup check) and insertion frequency 3, both the particle-particle contact
force and the particle-wall fine search run, and the particle-particle
contact force (dem.cc:611) is computed *before* the particle-wall fine search
(dem.cc:621) of the same timestep — refuting "no force computation of a
timestep precedes a fine-search pass of that same timestep". -/
theorem phase_order_counterexample :
    Event.ppContactForce ∈ solveIterationTrace 2 1 5 3 false ∧
    Event.pwFineSearch ∈ solveIterationTrace 2 1 5 3 false ∧
    (solveIterationTrace 2 1 5 3 false).indexOf Event.ppContactForce <
      (solveIterationTrace 2 1 5 3 false).indexOf Event.pwFineSearch := by
  decide

/-- Claim C2, amended. Within every iteration of the `solve()` loop, each
geometry class is processed in the order broad search, fine search, force
computation; ghost particles are exchanged before any force computation of
the timestep; integration follows all force computations; broad and fine
search run on the same iterations — but the particle-particle force
computation precedes the particle-wall fine search of the same iteration. -/
theorem timestep_phase_ordering (n C R F : Nat) (out : Bool) :
    orderedPhases (solveIterationTrace n C R F out) := by
  cases h1 : (n % R == 0) <;> cases h2 : ((n % F == 1) || (n % C == 0)) <;>
    cases out <;> simp only [solveIterationTrace, h1, h2] <;> decide

/-- Claim C3. The broad-phase and fine-phase contact searches (particle-particle
and particle-wall) run at step `n` if and only if particles were inserted at
step `n` (the flag returned by `insert_particles`) or `n` is a multiple of the
contact detection frequency; on all other steps all four are skipped. -/
theorem contact_search_cadence (n C R F : Nat) (out : Bool)
    (ins : List Particle → List Particle) (handler : List Particle)
    (hC : 0 < C) (hF : 0 < F) :
    (Event.ppBroadSearch ∈ solveIterationTrace n C R F out ↔
      ((insert_particles n F ins handler).1 = true ∨ n % C = 0)) ∧
    (Event.pwBroadSearch ∈ solveIterationTrace n C R F out ↔
      ((insert_particles n F ins handler).1 = true ∨ n % C = 0)) ∧
    (Event.ppFineSearch ∈ solveIterationTrace n C R F out ↔
      ((insert_particles n F ins handler).1 = true ∨ n % C = 0)) ∧
    (Event.pwFineSearch ∈ solveIterationTrace n C R F out ↔
      ((insert_particles n F ins handler).1 = true ∨ n % C = 0)) := by
  have h := searches_in_iterationEvents (n % R == 0) ((n % F == 1) || (n % C == 0)) out
  have hins : (insert_particles n F ins handler).1 = true ↔ n % F = 1 := by
    unfold insert_particles
    split <;> simp_all
  have hdet : (((n % F == 1) || (n % C == 0)) = true) ↔
      ((insert_particles n F ins handler).1 = true ∨ n % C = 0) := by
    simp [hins]
  rw [solveIterationTrace_eq]
  exact ⟨h.1.trans hdet, (h.2.1).trans hdet, (h.2.2.1).trans hdet, (h.2.2.2).trans hdet⟩

/-- Witness for C3 at step 4 with `C = 2`, `R = 4`, `F = 3`: no insertion
occurs, 4 is a multiple of 2, and all four searches run. -/
theorem contact_search_cadence_witness :
    (Event.ppBroadSearch ∈ solveIterationTrace 4 2 4 3 false ↔
      ((insert_particles 4 3 id []).1 = true ∨ 4 % 2 = 0)) ∧
    (Event.pwBroadSearch ∈ solveIterationTrace 4 2 4 3 false ↔
      ((insert_particles 4 3 id []).1 = true ∨ 4 % 2 = 0)) ∧
    (Event.ppFineSearch ∈ solveIterationTrace 4 2 4 3 false ↔
      ((insert_particles 4 3 id []).1 = true ∨ 4 % 2 = 0)) ∧
    (Event.pwFineSearch ∈ solveIterationTrace 4 2 4 3 false ↔
      ((insert_particles 4 3 id []).1 = true ∨ 4 % 2 = 0)) :=
  contact_search_cadence 4 2 4 3 false id [] (by decide) (by decide)

/-- Claim C4. The particle-particle and particle-wall contact force computations
are part of every iteration of the `solve()` loop, for every step number and
configuration, independent of the contact-detection cadence. -/
theorem contact_force_every_timestep (n C R F : Nat) (out : Bool) :
    Event.ppContactForce ∈ solveIterationTrace n C R F out ∧
    Event.pwContactForce ∈ solveIterationTrace n C R F out := by
  cases h1 : (n % R == 0) <;> cases h2 : ((n % F == 1) || (n % C == 0)) <;>
    cases out <;> simp only [solveIterationTrace, h1, h2] <;> decide

/-- Claim C5. On every timestep on which a repartition is triggered
(`n mod R = 0`, with `R` a multiple of the detection frequency `C` as the
constructor enforces), particle data is packed before the redistribution and
unpacked after it, and every derived cache — neighbor-cell lists, boundary
feature associations, candidate-pair lists and contact-object collections —
is rebuilt from the new decomposition before it is next consumed within that
timestep. -/
theorem repartition_rebuilds_caches (n C R F : Nat) (out : Bool)
    (hC : 0 < C) (hR : 0 < R) (hRC : R % C = 0) (hrep : n % R = 0) :
    repartitionStepSound (solveIterationTrace n C R F out) := by
  have hdvd : C ∣ R := Nat.dvd_of_mod_eq_zero hRC
  have hnC : n % C = 0 := by
    have h := Nat.mod_mod_of_dvd n hdvd
    rw [hrep] at h
    simpa using h.symm
  have h1 : (n % R == 0) = true := by simp [hrep]
  have h2 : ((n % F == 1) || (n % C == 0)) = true := by simp [hnC]
  cases out <;> simp only [solveIterationTrace, h1, h2] <;> decide

/-- Witness for C5 at `n = 4`, `C = 2`, `R = 4`, `F = 3`. -/
theorem repartition_rebuilds_caches_witness :
    (0 : Nat) < 2 ∧ (0 : Nat) < 4 ∧ 4 % 2 = 0 ∧ 4 % 4 = 0 ∧
    repartitionStepSound (solveIterationTrace 4 2 4 3 false) :=
  ⟨by decide, by decide, by decide, by decide,
   repartition_rebuilds_caches 4 2 4 3 false (by decide) (by decide)
     (by decide) (by decide)⟩

/-- Claim C6. The load-balancing weight callback returns 0 for a cell that is
not locally owned; for an owned persisting or refined cell it returns the
cell's particle count times the fixed `particle_weight` constant; for an owned
coarsened cell it returns the summed particle count of the children times
`particle_weight`; and `particle_weight = 10000` is much larger than the base
cell weight 1000. -/
theorem cell_weight_spec (cell : Cell) (status : CellStatus) :
    (cell.is_locally_owned = false → cell_weight cell status = 0) ∧
    (cell.is_locally_owned = true →
      (status = CellStatus.cellPersist ∨ status = CellStatus.cellRefine) →
      cell_weight cell status = cell.n_particles * particle_weight) ∧
    (cell.is_locally_owned = true → status = CellStatus.cellCoarsen →
      cell_weight cell status = cell.child_n_particles.sum * particle_weight) ∧
    base_cell_weight < particle_weight := by
  refine ⟨?_, ?_, ?_, by decide⟩
  · intro h
    simp [cell_weight, h]
  · rintro h (rfl | rfl) <;> simp [cell_weight, h]
  · rintro h rfl
    simp [cell_weight, h]

/-- Witness for C6: an unowned cell weighs 0; an owned cell with 5 particles
weighs `5 * particle_weight`; an owned coarsened cell with children holding
1, 2, 3 and 4 particles weighs `10 * particle_weight`. -/
theorem cell_weight_spec_witness :
    cell_weight ⟨false, 5, [1, 2]⟩ CellStatus.cellPersist = 0 ∧
    cell_weight ⟨true, 5, [1, 2]⟩ CellStatus.cellRefine = 5 * particle_weight ∧
    cell_weight ⟨true, 5, [1, 2, 3, 4]⟩ CellStatus.cellCoarsen =
      [1, 2, 3, 4].sum * particle_weight :=
  ⟨(cell_weight_spec ⟨false, 5, [1, 2]⟩ CellStatus.cellPersist).1 rfl,
   (cell_weight_spec ⟨true, 5, [1, 2]⟩ CellStatus.cellRefine).2.1 rfl (Or.inr rfl),
   (cell_weight_spec ⟨true, 5, [1, 2, 3, 4]⟩ CellStatus.cellCoarsen).2.2.1 rfl rfl⟩

/-- Claim C7. With a configuration that passes the constructor check, selecting
any unrecognized insertion / integration / particle-particle force /
particle-wall force method makes the run abort with a failure before any
timestep trace is produced; with recognized selections the setup succeeds,
the held objects are the concrete variants corresponding to each selection,
and the timestep loop then runs. -/
theorem variant_selection_spec (p : SolverSelections) (R C F : Nat)
    (steps : List Nat) (hRC : R % C = 0) :
    ((p.insertion_method = InsertionMethod.unrecognized ∨
      p.integration_method = IntegrationMethod.unrecognized ∨
      p.pp_method = PPContactForceModel.unrecognized ∨
      p.pw_method = PWContactForceModel.unrecognized) →
      ∃ msg, runDEM R C F p steps = Except.error msg) ∧
    (p.insertion_method ≠ InsertionMethod.unrecognized →
     p.integration_method ≠ IntegrationMethod.unrecognized →
     p.pp_method ≠ PPContactForceModel.unrecognized →
     p.pw_method ≠ PWContactForceModel.unrecognized →
     ∃ objs, solveSetup p = Except.ok objs ∧
       (p.insertion_method = InsertionMethod.uniform →
         objs.insertion_object = InsertionVariant.uniformInsertion) ∧
       (p.insertion_method = InsertionMethod.non_uniform →
         objs.insertion_object = InsertionVariant.nonUniformInsertion) ∧
       (p.integration_method = IntegrationMethod.velocity_verlet →
         objs.integrator_object = IntegratorVariant.velocityVerletIntegrator) ∧
       (p.integration_method = IntegrationMethod.explicit_euler →
         objs.integrator_object = IntegratorVariant.explicitEulerIntegrator) ∧
       (p.pp_method = PPContactForceModel.pp_linear →
         objs.pp_contact_force_object = PPForceVariant.ppLinearForce) ∧
       (p.pp_method = PPContactForceModel.pp_nonlinear →
         objs.pp_contact_force_object = PPForceVariant.ppNonLinearForce) ∧
       (p.pw_method = PWContactForceModel.pw_linear →
         objs.pw_contact_force_object = PWForceVariant.pwLinearForce) ∧
       (p.pw_method = PWContactForceModel.pw_nonlinear →
         objs.pw_contact_force_object = PWForceVariant.pwNonLinearForce) ∧
       runDEM R C F p steps =
         Except.ok (steps.map fun n => solveIterationTrace n C R F false)) := by
  have hc : constructorRepartitionCheck R C = Except.ok () := by
    simp [constructorRepartitionCheck, hRC]
  obtain ⟨mi, mg, mpp, mpw⟩ := p
  constructor
  · intro h
    cases mi <;> cases mg <;> cases mpp <;> cases mpw <;>
      first
        | exact ⟨_, by unfold runDEM; rw [hc]; rfl⟩
        | simp_all
  · intro h1 h2 h3 h4
    cases mi <;> cases mg <;> cases mpp <;> cases mpw <;>
      first
        | exact absurd rfl h1
        | exact absurd rfl h2
        | exact absurd rfl h3
        | exact absurd rfl h4
        | exact ⟨_, rfl, by decide, by decide, by decide, by decide, by decide,
                 by decide, by decide, by decide, by unfold runDEM; rw [hc]; rfl⟩

/-- Witness for C7: an unrecognized insertion method aborts the run; the
fully recognized selection (non-uniform, explicit Euler, nonlinear forces)
yields exactly those variants and the loop runs. -/
theorem variant_selection_spec_witness :
    (∃ msg,
      runDEM 2 1 1 ⟨.unrecognized, .velocity_verlet, .pp_linear, .pw_linear⟩ [1] =
        Except.error msg) ∧
    (∃ objs,
      solveSetup ⟨.non_uniform, .explicit_euler, .pp_nonlinear, .pw_nonlinear⟩ =
        Except.ok objs ∧
      (InsertionMethod.non_uniform = InsertionMethod.uniform →
        objs.insertion_object = InsertionVariant.uniformInsertion) ∧
      (InsertionMethod.non_uniform = InsertionMethod.non_uniform →
        objs.insertion_object = InsertionVariant.nonUniformInsertion) ∧
      (IntegrationMethod.explicit_euler = IntegrationMethod.velocity_verlet →
        objs.integrator_object = IntegratorVariant.velocityVerletIntegrator) ∧
      (IntegrationMethod.explicit_euler = IntegrationMethod.explicit_euler →
        objs.integrator_object = IntegratorVariant.explicitEulerIntegrator) ∧
      (PPContactForceModel.pp_nonlinear = PPContactForceModel.pp_linear →
        objs.pp_contact_force_object = PPForceVariant.ppLinearForce) ∧
      (PPContactForceModel.pp_nonlinear = PPContactForceModel.pp_nonlinear →
        objs.pp_contact_force_object = PPForceVariant.ppNonLinearForce) ∧
      (PWContactForceModel.pw_nonlinear = PWContactForceModel.pw_linear →
        objs.pw_contact_force_object = PWForceVariant.pwLinearForce) ∧
      (PWContactForceModel.pw_nonlinear = PWContactForceModel.pw_nonlinear →
        objs.pw_contact_force_object = PWForceVariant.pwNonLinearForce) ∧
      runDEM 2 1 1 ⟨.non_uniform, .explicit_euler, .pp_nonlinear, .pw_nonlinear⟩ [1] =
        Except.ok ([1].map fun n => solveIterationTrace n 1 2 1 false)) :=
  ⟨(variant_selection_spec ⟨.unrecognized, .velocity_verlet, .pp_linear, .pw_linear⟩
      2 1 1 [1] rfl).1 (Or.inl rfl),
   (variant_selection_spec ⟨.non_uniform, .explicit_euler, .pp_nonlinear, .pw_nonlinear⟩
      2 1 1 [1] rfl).2 (by decide) (by decide) (by decide) (by decide)⟩

/-- Claim C8. Every particle coming out of the force reset has zero accumulated
force and torque components (`force_x`, `force_y`, `M_x`, `M_y`, and in 3-D
also `force_z` and `M_z`), and in every iteration of the `solve()` loop the
reset precedes insertion, every contact search and every force computation. -/
theorem forces_reset_each_timestep (dim : Nat) (ps : List Particle)
    (q : Particle) (hq : q ∈ reinit_force dim ps) (n C R F : Nat) (out : Bool) :
    (q.force_x = 0 ∧ q.force_y = 0 ∧ q.M_x = 0 ∧ q.M_y = 0 ∧
      (dim = 3 → q.force_z = 0 ∧ q.M_z = 0)) ∧
    reinitPrecedesPhases (solveIterationTrace n C R F out) := by
  constructor
  · obtain ⟨p, hp, rfl⟩ := List.mem_map.mp hq
    unfold reinit_particle
    by_cases h3 : dim = 3 <;> simp [h3]
  · cases h1 : (n % R == 0) <;> cases h2 : ((n % F == 1) || (n % C == 0)) <;>
      cases out <;> simp only [solveIterationTrace, h1, h2] <;> decide

/-- A concrete particle with nonzero force and torque slots, used by
witnesses. -/
def sampleParticle : Particle :=
  ⟨7, 1, 2, 3, 4, 5, 6, 7, 8, 9, 2, 3, 11, 12, 13, 14, 15, 16⟩

/-- Witness for C8 on `sampleParticle` in 3-D at step 1 of a run with
`C = 1`, `R = 2`, `F = 2`. -/
theorem forces_reset_each_timestep_witness :
    ((reinit_particle 3 sampleParticle).force_x = 0 ∧
     (reinit_particle 3 sampleParticle).force_y = 0 ∧
     (reinit_particle 3 sampleParticle).M_x = 0 ∧
     (reinit_particle 3 sampleParticle).M_y = 0 ∧
     ((3 : Nat) = 3 →
       (reinit_particle 3 sampleParticle).force_z = 0 ∧
       (reinit_particle 3 sampleParticle).M_z = 0)) ∧
    reinitPrecedesPhases (solveIterationTrace 1 1 2 2 false) :=
  forces_reset_each_timestep 3 [sampleParticle] (reinit_particle 3 sampleParticle)
    (List.mem_singleton_self _) 1 1 2 2 false

/-- Claim C9. `insert_particles` performs an insertion and returns `true`
exactly when the current step number modulo the insertion frequency equals 1,
and otherwise returns `false` leaving the particle population unchanged; for
insertion frequency 1 the condition never holds, so no insertion ever
occurs. -/
theorem insert_particles_cadence (step F : Nat)
    (ins : List Particle → List Particle) (handler : List Particle)
    (hF : 0 < F) :
    ((insert_particles step F ins handler).1 = true ↔ step % F = 1) ∧
    (step % F = 1 → insert_particles step F ins handler = (true, ins handler)) ∧
    ((insert_particles step F ins handler).1 = false →
      (insert_particles step F ins handler).2 = handler) ∧
    (F = 1 → (insert_particles step F ins handler).1 = false) := by
  unfold insert_particles
  by_cases h : step % F = 1 <;> simp [h]
  rintro rfl
  omega

/-- Witness for C9: at step 1 with frequency 2 the insertion fires; at step 1
with frequency 1 it does not. -/
theorem insert_particles_cadence_witness :
    ((insert_particles 1 2 id []).1 = true ↔ 1 % 2 = 1) ∧
    ((1 : Nat) % 2 = 1 → insert_particles 1 2 id [] = (true, id [])) ∧
    ((insert_particles 1 2 id []).1 = false → (insert_particles 1 2 id []).2 = []) ∧
    ((2 : Nat) = 1 → (insert_particles 1 2 id []).1 = false) :=
  insert_particles_cadence 1 2 id [] (by decide)

/-- Claim C10. The force reset modifies only the force and torque slots: the
identifier, position, velocity, angular velocity, radius and mass of every
particle, the number of particles, and their order are unchanged. -/
theorem reinit_force_frame (dim : Nat) (ps : List Particle) :
    (reinit_force dim ps).map Particle.kinematics = ps.map Particle.kinematics ∧
    (reinit_force dim ps).length = ps.length := by
  have hpt : ∀ p, Particle.kinematics (reinit_particle dim p) = Particle.kinematics p := by
    intro p
    unfold reinit_particle Particle.kinematics
    by_cases h3 : dim = 3 <;> simp [h3]
  constructor
  · unfold reinit_force
    rw [List.map_map]
    exact List.map_congr_left fun p _ => hpt p
  · simp [reinit_force]

end DEM
